import Mathlib

/-
Shallow embedding of the load-test engine in
`stress-test/stress_test_service.py`: endpoint specifications, the
weighted/uniform endpoint selector of `run_load_test`, the request
executor `make_request`, the worker loop and its result aggregation,
the run-controller lifecycle (`start_test`, `execute_test_in_thread`,
the thread body `run`), and the `/run-test` configuration merge.

Modelling conventions:
- the HTTP call issued by `make_request` is abstracted as an
  `Except String Nat` value: `.ok s` stands for a response with status
  code `s`, `.error msg` for any network/timeout/protocol exception;
- randomness is made explicit: `random.uniform(0, total_weight)` becomes
  a rational draw `r`, `random.choice` becomes an index draw;
- a run's worker-pool execution is the interleaved sequence of worker
  iterations; each iteration's counter updates (lines 89-107) contain no
  await point, so they are atomic and the interleaving is a plain list
  of items folded over the shared counters.
-/

namespace StressTest

/-- One entry of the `endpoints` list of the configuration dictionary:
`path`, `method`, optional JSON `data` payload (opaque here), optional
`weight` (the code reads it with `endpoint.get('weight', 1)`). -/
structure Endpoint where
  path : String
  method : String
  data : Option String := none
  weight : Option Nat := none
  deriving DecidableEq

/-- The configuration dictionary (`DEFAULT_CONFIG` keys). -/
structure Config where
  api_url : String
  endpoints : List Endpoint
  concurrent_requests : Nat
  test_duration : Nat
  request_timeout : Nat
  use_weights : Bool
  deriving DecidableEq

/-- `DEFAULT_CONFIG` from lines 19-30 of the source. -/
def DEFAULT_CONFIG : Config :=
  { api_url := "http://target-api:5000"
    endpoints :=
      [ { path := "/", method := "GET", weight := some 10 }
      , { path := "/status", method := "GET", weight := some 5 }
      , { path := "/submit", method := "POST"
        , data := some "name: John Doe, email: john@example.com"
        , weight := some 8 } ]
    concurrent_requests := 50
    test_duration := 30
    request_timeout := 5
    use_weights := true }

/-- `endpoint.get('weight', 1)` (lines 133 and 161). -/
def epWeight (e : Endpoint) : Nat := e.weight.getD 1

/-- `total_weight = sum(weights)` (line 134), computed once per run. -/
def total_weight (es : List Endpoint) : Nat := (es.map epWeight).sum

/-- The `for` loop of lines 160-164: walk the endpoints accumulating
`cumulative_weight`; the first endpoint with `r <= cumulative_weight`
is selected (`break`); if none is, the initial value
`config['endpoints'][0]` (line 158), passed here as `sel`, stands. -/
def selectLoop (r : ℚ) : List Endpoint → ℚ → Endpoint → Endpoint
  | [], _, sel => sel
  | e :: rest, cum, sel =>
      let cum2 := cum + (epWeight e : ℚ)
      if r ≤ cum2 then e else selectLoop r rest cum2 sel

/-- The weighted branch of the selector (lines 155-164): `none` models
the `IndexError` that `config['endpoints'][0]` raises on an empty
endpoint list. -/
def weightedSelect (es : List Endpoint) (r : ℚ) : Option Endpoint :=
  match es with
  | [] => none
  | e0 :: _ => some (selectLoop r es 0 e0)

/-- `random.choice(config['endpoints'])` (line 167) with the random
below-length index made explicit; `none` models the `IndexError` on an
empty sequence. -/
def randomChoice (es : List Endpoint) (i : Nat) : Option Endpoint := es.get? i

/-- The randomness consumed by one producer iteration: `r` for
`random.uniform(0, total_weight)` (line 156), `idx` for the index drawn
by `random.choice` (line 167). -/
structure Draw where
  r : ℚ
  idx : Nat

/-- One iteration of the request-generation loop (lines 152-167):
`if use_weights and total_weight > 0` take the weighted branch, else
`random.choice`. -/
def producerSelect (cfg : Config) (d : Draw) : Option Endpoint :=
  let tw := total_weight cfg.endpoints
  if cfg.use_weights = true ∧ 0 < tw then weightedSelect cfg.endpoints d.r
  else randomChoice cfg.endpoints d.idx

/-- The sequence of endpoints selected over one run for a given stream
of random draws; `total_weight` inside `producerSelect` is a function of
the run-frozen `cfg` only, matching its once-per-run computation at
line 134. -/
def producerSelections (cfg : Config) (draws : List Draw) : List (Option Endpoint) :=
  draws.map (producerSelect cfg)

/-- `make_request` (lines 39-73): dispatch on the method string; the
abstracted HTTP call `net` yields either a status code or an exception.
The `except` clause returns `None`, as does the unsupported-method
branch; URL construction and logging have no effect on the returned
value and are omitted. -/
def make_request (endpoint_config : Endpoint) (net : Except String Nat) : Option Nat :=
  if endpoint_config.method = "GET" then
    match net with
    | .ok status => some status
    | .error _ => none
  else if endpoint_config.method = "POST" then
    match net with
    | .ok status => some status
    | .error _ => none
  else none

/-- `if status == 200` classification used at lines 90 and 104. -/
def isSuccess (status : Option Nat) : Bool := status == some 200

/-- Per-endpoint counters (`{"total": 0, "success": 0, "failed": 0}`,
line 101). -/
structure EndpointStats where
  total : Nat
  success : Nat
  failed : Nat
  deriving DecidableEq

/-- The shared results dictionary: global counters (line 116) plus the
`endpoint_stats` mapping, kept as the association list of its entries. -/
structure Results where
  total : Nat
  success : Nat
  failed : Nat
  endpoint_stats : List (String × EndpointStats)
  deriving DecidableEq

/-- `results = {"total": 0, "success": 0, "failed": 0}` (line 116);
`endpoint_stats` is absent until the first processed item, i.e. empty. -/
def initResults : Results := ⟨0, 0, 0, []⟩

/-- `endpoint_key = f"{method}:{path}"` (line 96). -/
def endpointKey (e : Endpoint) : String := e.method ++ ":" ++ e.path

/-- Lines 103-107 applied to one per-endpoint record: `total += 1` and
one of `success`/`failed` incremented according to the classification. -/
def addOutcome (s : EndpointStats) (succ : Bool) : EndpointStats :=
  ⟨s.total + 1, s.success + (if succ then 1 else 0), s.failed + (if succ then 0 else 1)⟩

/-- Lines 100-107: create the key's record if absent (zeroed), then
increment it. -/
def updateStats : List (String × EndpointStats) → String → Bool → List (String × EndpointStats)
  | [], k, succ => [(k, addOutcome ⟨0, 0, 0⟩ succ)]
  | (k0, s0) :: rest, k, succ =>
      if k0 = k then (k0, addOutcome s0 succ) :: rest
      else (k0, s0) :: updateStats rest k succ

/-- One dequeued item as one worker iteration sees it: the `None`
sentinel (line 81), a request assignment together with the abstracted
outcome of its HTTP call, or an unexpected exception raised inside the
iteration body before any counter update (the realistic fault points,
such as the key accesses at lines 41-42, precede line 89). -/
inductive WorkerItem where
  | sentinel : WorkerItem
  | req : Endpoint → Except String Nat → WorkerItem
  | fault : WorkerItem

/-- The effect of one worker iteration (lines 78-112) on the shared
results: a request item runs `make_request` and applies the counter
updates of lines 89-107; the sentinel and the `except` handler
(lines 110-112: log and `task_done` only) leave the counters unchanged. -/
def workerStep (r : Results) : WorkerItem → Results
  | .sentinel => r
  | .fault => r
  | .req ep net =>
      let status := make_request ep net
      { total := r.total + 1
        success := r.success + (if isSuccess status then 1 else 0)
        failed := r.failed + (if isSuccess status then 0 else 1)
        endpoint_stats := updateStats r.endpoint_stats (endpointKey ep) (isSuccess status) }

/-- One worker's dequeue loop (`while True`, lines 77-112): the sentinel
breaks the loop, every other item is processed (or its fault absorbed)
and the loop continues. -/
def workerRun (r : Results) : List WorkerItem → Results
  | [] => r
  | item :: rest =>
      match item with
      | .sentinel => r
      | _ => workerRun (workerStep r item) rest

/-- Aggregate results of a completed run: the fold of the interleaved
iteration sequence of the whole worker pool over the shared counters,
starting from `initResults`; a sentinel iteration updates nothing. -/
def runResults (items : List WorkerItem) : Results :=
  items.foldl workerStep initResults

/-- Sum of the per-endpoint `total` counters. -/
def statsTotalSum (l : List (String × EndpointStats)) : Nat :=
  (l.map (fun p => p.2.total)).sum

/-- The module-level mutable state (lines 33-35): `current_config`,
`last_test_results`, `is_test_running`. -/
structure ControllerState where
  current_config : Config
  last_test_results : Option Results
  is_test_running : Bool
  deriving DecidableEq

/-- Outcome of a start request as the control surface reports it. -/
inductive StartResponse where
  | started : StartResponse
  | alreadyRunning : StartResponse
  deriving DecidableEq

/-- `start_test` (lines 296-320) composed with the guard of
`execute_test_in_thread` (lines 214-218): if `is_test_running`, reply
"A test is already running" and change nothing; otherwise set the flag
and launch the run thread. No field of the configuration is inspected. -/
def startTest (s : ControllerState) : ControllerState × StartResponse :=
  if s.is_test_running then (s, .alreadyRunning)
  else ({ s with is_test_running := true }, .started)

/-- The thread body `run` of `execute_test_in_thread` (lines 220-243):
`outcome` is the result of `run_load_test` — `.ok res` stores the
results, `.error` (an exception) only logs; the `finally` clause resets
`is_test_running` in both cases. -/
def runThread (s : ControllerState) (outcome : Except String Results) : ControllerState :=
  match outcome with
  | .ok res => { s with last_test_results := some res, is_test_running := false }
  | .error _ => { s with is_test_running := false }

/-- The optional fields of a `POST /run-test` JSON body (lines 354-370);
`none` is an absent key. -/
structure RunTestBody where
  api_url : Option String
  seconds : Option Nat
  requests : Option Nat
  timeout : Option Nat
  use_weights : Option Bool
  endpoints : Option (List Endpoint)
  reset_endpoints : Option Bool
  deriving DecidableEq

/-- A `POST /run-test` request with an empty JSON body. -/
def emptyBody : RunTestBody := ⟨none, none, none, none, none, none, none⟩

/-- The configuration update performed by the `/run-test` handler
(lines 357-370): each scalar key is set to `data.get(key, default)`
with the hard-coded default; `endpoints` is replaced when supplied,
reset to the defaults when `reset_endpoints` is truthy, and kept
otherwise. -/
def run_test_config_update (cfg : Config) (d : RunTestBody) : Config :=
  let c := { cfg with api_url := d.api_url.getD "http://target-api:5000" }
  let c := { c with test_duration := d.seconds.getD 30 }
  let c := { c with concurrent_requests := d.requests.getD 50 }
  let c := { c with request_timeout := d.timeout.getD 5 }
  let c := { c with use_weights := d.use_weights.getD true }
  match d.endpoints with
  | some es => { c with endpoints := es }
  | none =>
      if d.reset_endpoints.getD false then { c with endpoints := DEFAULT_CONFIG.endpoints }
      else c

/-- The `/run-test` route (lines 343-388): reject while running,
otherwise update the stored configuration and start. -/
def run_test (s : ControllerState) (d : RunTestBody) : ControllerState × StartResponse :=
  if s.is_test_running then (s, .alreadyRunning)
  else startTest { s with current_config := run_test_config_update s.current_config d }

/-- Specification-side selector, following the spec's description of the
weighted sampler amended at the boundary: the first endpoint, in
configuration order, whose cumulative weight is at least `r` (`none`
when no cumulative weight reaches `r`). -/
def specFirstCumGe (r : ℚ) : List Endpoint → ℚ → Option Endpoint
  | [], _ => none
  | e :: rest, cum =>
      let cum2 := cum + (epWeight e : ℚ)
      if r ≤ cum2 then some e else specFirstCumGe r rest cum2

/-- Specification-side selector exactly as the claim words it: the first
endpoint, in configuration order, whose cumulative weight strictly
exceeds `r`. -/
def specFirstCumGt (r : ℚ) : List Endpoint → ℚ → Option Endpoint
  | [], _ => none
  | e :: rest, cum =>
      let cum2 := cum + (epWeight e : ℚ)
      if r < cum2 then some e else specFirstCumGt r rest cum2

/-- Two-endpoint configuration with weights 1 and 1, for boundary draws
of the weighted selector. -/
def epA : Endpoint := { path := "/a", method := "GET", weight := some 1 }

/-- Second endpoint of the weight-1/weight-1 configuration. -/
def epB : Endpoint := { path := "/b", method := "GET", weight := some 1 }

/-- Configuration holding `epA` then `epB`, `use_weights = true`. -/
def cfgAB : Config := { DEFAULT_CONFIG with endpoints := [epA, epB] }

/-- First endpoint of an all-weights-zero configuration. -/
def epZ1 : Endpoint := { path := "/z1", method := "GET", weight := some 0 }

/-- Second endpoint of an all-weights-zero configuration. -/
def epZ2 : Endpoint := { path := "/z2", method := "GET", weight := some 0 }

/-- Configuration whose endpoints all have weight 0, `use_weights = true`. -/
def cfgZ : Config := { DEFAULT_CONFIG with endpoints := [epZ1, epZ2] }

/-- Configuration violating the `endpoints` non-empty invariant. -/
def cfgNoEndpoints : Config := { DEFAULT_CONFIG with endpoints := [] }

/-- A stored configuration whose `api_url` and `test_duration` differ
from the hard-coded `/run-test` defaults. -/
def cfgStored : Config :=
  { DEFAULT_CONFIG with api_url := "http://other:9999", test_duration := 60 }

theorem total_weight_nil : total_weight [] = 0 := rfl

theorem total_weight_cons (e : Endpoint) (rest : List Endpoint) :
    total_weight (e :: rest) = epWeight e + total_weight rest := by
  simp [total_weight]

theorem selectLoop_eq_specFirstCumGe (r : ℚ) :
    ∀ (es : List Endpoint) (cum : ℚ) (sel : Endpoint),
      selectLoop r es cum sel = (specFirstCumGe r es cum).getD sel := by
  intro es
  induction es with
  | nil => intro cum sel; rfl
  | cons e rest ih =>
      intro cum sel
      by_cases h : r ≤ cum + (epWeight e : ℚ)
      · simp [selectLoop, specFirstCumGe, h]
      · simp [selectLoop, specFirstCumGe, h, ih]

theorem specFirstCumGe_isSome (r : ℚ) :
    ∀ (es : List Endpoint) (cum : ℚ), es ≠ [] →
      r ≤ cum + (total_weight es : ℚ) → (specFirstCumGe r es cum).isSome = true := by
  intro es
  induction es with
  | nil => intro cum h _; exact absurd rfl h
  | cons e rest ih =>
      intro cum _ hle
      by_cases h : r ≤ cum + (epWeight e : ℚ)
      · simp [specFirstCumGe, h]
      · cases rest with
        | nil =>
            exfalso
            apply h
            have : (total_weight [e] : ℚ) = (epWeight e : ℚ) := by
              simp [total_weight]
            rw [this] at hle
            exact hle
        | cons e2 rest2 =>
            have hsum : (total_weight (e :: e2 :: rest2) : ℚ)
                = (epWeight e : ℚ) + (total_weight (e2 :: rest2) : ℚ) := by
              rw [total_weight_cons]
              push_cast
              ring
            have hle2 : r ≤ (cum + (epWeight e : ℚ)) + (total_weight (e2 :: rest2) : ℚ) := by
              rw [hsum] at hle
              linarith
            simp [specFirstCumGe, h]
            exact ih (cum + (epWeight e : ℚ)) (by simp) hle2

theorem statsTotalSum_updateStats (l : List (String × EndpointStats)) (k : String) (b : Bool) :
    statsTotalSum (updateStats l k b) = statsTotalSum l + 1 := by
  induction l with
  | nil => simp [updateStats, statsTotalSum, addOutcome]
  | cons p rest ih =>
      obtain ⟨k0, s0⟩ := p
      by_cases h : k0 = k
      · simp [updateStats, h, statsTotalSum, addOutcome]
        ring
      · simp [updateStats, h, statsTotalSum] at ih ⊢
        omega

theorem workerStep_inv (r : Results) (i : WorkerItem)
    (h1 : r.total = r.success + r.failed)
    (h2 : statsTotalSum r.endpoint_stats = r.total) :
    (workerStep r i).total = (workerStep r i).success + (workerStep r i).failed
    ∧ statsTotalSum (workerStep r i).endpoint_stats = (workerStep r i).total := by
  cases i with
  | sentinel => exact ⟨h1, h2⟩
  | fault => exact ⟨h1, h2⟩
  | req ep net =>
      constructor
      · simp only [workerStep]
        cases isSuccess (make_request ep net) <;> simp <;> omega
      · simp only [workerStep]
        simp [statsTotalSum_updateStats, h2]

theorem foldl_workerStep_inv (items : List WorkerItem) :
    ∀ (r : Results), r.total = r.success + r.failed →
      statsTotalSum r.endpoint_stats = r.total →
      ((items.foldl workerStep r).total
          = (items.foldl workerStep r).success + (items.foldl workerStep r).failed
        ∧ statsTotalSum (items.foldl workerStep r).endpoint_stats
          = (items.foldl workerStep r).total) := by
  induction items with
  | nil => intro r h1 h2; exact ⟨h1, h2⟩
  | cons i rest ih =>
      intro r h1 h2
      have h := workerStep_inv r i h1 h2
      simpa using ih (workerStep r i) h.1 h.2

/-- C1: after a completed run, the aggregated result satisfies
`total = success + failed` exactly, and the per-endpoint `total`
counters of `endpoint_stats` sum to the global `total`; this holds for
every interleaved iteration sequence of the worker pool. -/
theorem run_totals_consistent (items : List WorkerItem) :
    (runResults items).total = (runResults items).success + (runResults items).failed
    ∧ statsTotalSum (runResults items).endpoint_stats = (runResults items).total := by
  have h := foldl_workerStep_inv items initResults (by rfl) (by rfl)
  simpa [runResults] using h

/-- C2: a start request arriving while `is_test_running` is true is
answered "already running" and leaves the whole controller state — in
particular the stored configuration and the last results — unchanged. -/
theorem start_rejected_while_running (s : ControllerState)
    (h : s.is_test_running = true) :
    startTest s = (s, StartResponse.alreadyRunning)
    ∧ (startTest s).1.current_config = s.current_config
    ∧ (startTest s).1.last_test_results = s.last_test_results := by
  simp [startTest, h]

theorem start_rejected_while_running_witness :
    startTest ⟨DEFAULT_CONFIG, none, true⟩
      = (⟨DEFAULT_CONFIG, none, true⟩, StartResponse.alreadyRunning)
    ∧ (startTest ⟨DEFAULT_CONFIG, none, true⟩).1.current_config = DEFAULT_CONFIG
    ∧ (startTest ⟨DEFAULT_CONFIG, none, true⟩).1.last_test_results = none :=
  start_rejected_while_running ⟨DEFAULT_CONFIG, none, true⟩ rfl

/-- C3 counterexample: with two endpoints of weight 1 each and the
boundary draw `r = 1`, the code (`if r <= cumulative_weight`) selects
the first endpoint, while the first endpoint whose cumulative weight
strictly exceeds `r = 1` is the second — so the claim's strict reading
is false on the code. -/
theorem weighted_selection_strict_cex :
    producerSelect cfgAB ⟨1, 0⟩ = some epA
    ∧ specFirstCumGt (1 : ℚ) cfgAB.endpoints 0 = some epB
    ∧ epA ≠ epB := by
  refine ⟨?_, ?_, by decide⟩
  · simp [producerSelect, cfgAB, DEFAULT_CONFIG, total_weight, epA, epB, epWeight,
      weightedSelect, selectLoop]
  · simp [specFirstCumGt, cfgAB, DEFAULT_CONFIG, epA, epB, epWeight]

/-- C3 (amended): for a run with `use_weights` and positive total
weight, the producer computes `total_weight = sum(weight)` once from
the run-frozen configuration, and every draw `r` in `[0, total_weight]`
selects the first endpoint in configuration order whose cumulative
weight is at least `r` (ties at the boundary select the earlier
endpoint, `r <= cumulative_weight`); such an endpoint always exists. -/
theorem weighted_selection_first_cumulative_ge (cfg : Config) (draws : List Draw)
    (hw : cfg.use_weights = true)
    (hpos : 0 < total_weight cfg.endpoints)
    (hr : ∀ d ∈ draws, 0 ≤ d.r ∧ d.r ≤ (total_weight cfg.endpoints : ℚ)) :
    producerSelections cfg draws
      = draws.map (fun d => specFirstCumGe d.r cfg.endpoints 0)
    ∧ ∀ d ∈ draws, (specFirstCumGe d.r cfg.endpoints 0).isSome = true := by
  have hne : cfg.endpoints ≠ [] := by
    intro hnil
    rw [hnil] at hpos
    simp [total_weight] at hpos
  have hsome : ∀ d ∈ draws, (specFirstCumGe d.r cfg.endpoints 0).isSome = true := by
    intro d hd
    exact specFirstCumGe_isSome d.r cfg.endpoints 0 hne
      (by simpa using (hr d hd).2)
  refine ⟨?_, hsome⟩
  unfold producerSelections
  apply List.map_congr_left
  intro d hd
  have hguard : cfg.use_weights = true ∧ 0 < total_weight cfg.endpoints := ⟨hw, hpos⟩
  rw [producerSelect, if_pos hguard]
  obtain ⟨e0, rest, he⟩ : ∃ e0 rest, cfg.endpoints = e0 :: rest := by
    cases hcs : cfg.endpoints with
    | nil => exact absurd hcs hne
    | cons a b => exact ⟨a, b, rfl⟩
  rw [he]
  rw [weightedSelect]
  rw [selectLoop_eq_specFirstCumGe]
  have hs := hsome d hd
  rw [he] at hs
  cases hfc : specFirstCumGe d.r (e0 :: rest) 0 with
  | none => rw [hfc] at hs; simp at hs
  | some e => simp [hfc]

theorem weighted_selection_first_cumulative_ge_witness :
    producerSelections DEFAULT_CONFIG [⟨12, 0⟩]
      = [(⟨12, 0⟩ : Draw)].map (fun d => specFirstCumGe d.r DEFAULT_CONFIG.endpoints 0)
    ∧ ∀ d ∈ [(⟨12, 0⟩ : Draw)],
        (specFirstCumGe d.r DEFAULT_CONFIG.endpoints 0).isSome = true :=
  weighted_selection_first_cumulative_ge DEFAULT_CONFIG [⟨12, 0⟩] rfl
    (by norm_num [total_weight, DEFAULT_CONFIG, epWeight])
    (by
      intro d hd
      simp only [List.mem_singleton] at hd
      subst hd
      norm_num [total_weight, DEFAULT_CONFIG, epWeight])

/-- C4 counterexample: with `use_weights = true` and every weight 0, a
call whose `random.choice` draw lands on index 1 returns the second
endpoint, not the first endpoint of the configured sequence. -/
theorem zero_weight_first_endpoint_cex :
    producerSelect cfgZ ⟨0, 1⟩ = some epZ2
    ∧ cfgZ.endpoints.head? = some epZ1
    ∧ epZ2 ≠ epZ1 := by
  refine ⟨?_, by decide, by decide⟩
  simp [producerSelect, cfgZ, DEFAULT_CONFIG, total_weight, epZ1, epZ2, epWeight,
    randomChoice]

/-- C4 (amended): when `use_weights` is true but the total weight is 0,
the guard `use_weights and total_weight > 0` fails and every call falls
back to the uniform `random.choice` branch over the configured
endpoints (not to the first endpoint). -/
theorem zero_weight_uniform_fallback (cfg : Config) (d : Draw)
    (_hw : cfg.use_weights = true)
    (h0 : total_weight cfg.endpoints = 0) :
    producerSelect cfg d = randomChoice cfg.endpoints d.idx := by
  simp [producerSelect, h0]

theorem zero_weight_uniform_fallback_witness :
    producerSelect cfgZ ⟨0, 1⟩ = randomChoice cfgZ.endpoints 1 :=
  zero_weight_uniform_fallback cfgZ ⟨0, 1⟩ rfl rfl

/-- C5: a dispatched request is counted as a success exactly when the
status returned by `make_request` is `some 200`; every other outcome —
any other status code or a `none` — increments `failed`, and every
processed request increments `total` by one. -/
theorem success_iff_exact_200 (r : Results) (ep : Endpoint) (net : Except String Nat) :
    ((workerStep r (.req ep net)).success = r.success + 1
      ↔ make_request ep net = some 200)
    ∧ ((workerStep r (.req ep net)).failed = r.failed + 1
      ↔ make_request ep net ≠ some 200)
    ∧ (workerStep r (.req ep net)).total = r.total + 1 := by
  by_cases h : make_request ep net = some 200 <;>
    simp [workerStep, isSuccess, h]

/-- C6: for every endpoint, an HTTP call that ends in a network,
timeout, or protocol exception makes `make_request` return `none`; the
function is total, so nothing propagates to the worker. -/
theorem make_request_error_returns_none (ep : Endpoint) (msg : String) :
    make_request ep (Except.error msg) = none := by
  unfold make_request
  split_ifs <;> rfl

/-- C7 counterexample: a worker iteration that raises an unexpected
error leaves every aggregated counter untouched — in particular
`failed` stays 0 — contradicting the claim that the iteration is
recorded as a failed outcome. -/
theorem worker_fault_uncounted_cex :
    workerRun initResults [WorkerItem.fault] = initResults
    ∧ (workerRun initResults [WorkerItem.fault]).failed = 0 :=
  ⟨rfl, rfl⟩

/-- C7 (amended): an unexpected error inside one worker iteration is
absorbed by the `except` handler, which only logs and marks the queue
item done: the aggregated counters are unchanged and the worker
continues its dequeue loop rather than terminating. -/
theorem worker_fault_continues (r : Results) (rest : List WorkerItem) :
    workerRun r (WorkerItem.fault :: rest) = workerRun r rest
    ∧ workerStep r WorkerItem.fault = r :=
  ⟨rfl, rfl⟩

/-- C8 counterexample: with the empty-endpoints configuration (which
violates the RunConfig invariants) and no test running, `startTest`
answers "started" and flips the running flag — the run is launched, not
rejected. -/
theorem start_launches_invalid_config_cex :
    (startTest ⟨cfgNoEndpoints, none, false⟩).2 = StartResponse.started
    ∧ (startTest ⟨cfgNoEndpoints, none, false⟩).1.is_test_running = true :=
  ⟨rfl, rfl⟩

/-- C8 (amended): `start_test` performs no configuration validation:
whenever no test is running, it launches the run — whatever the stored
configuration, valid or not — and the stored configuration is passed
through unchanged. A violated invariant such as an empty endpoint list
surfaces only later, inside the run (the producer's `random.choice` on
an empty sequence raises, the error is caught, and the run completes
with zero requests). -/
theorem start_guard_only_checks_running (s : ControllerState)
    (h : s.is_test_running = false) :
    (startTest s).2 = StartResponse.started
    ∧ (startTest s).1.is_test_running = true
    ∧ (startTest s).1.current_config = s.current_config := by
  simp [startTest, h]

theorem start_guard_only_checks_running_witness :
    (startTest ⟨cfgNoEndpoints, none, false⟩).2 = StartResponse.started
    ∧ (startTest ⟨cfgNoEndpoints, none, false⟩).1.is_test_running = true
    ∧ (startTest ⟨cfgNoEndpoints, none, false⟩).1.current_config = cfgNoEndpoints :=
  start_guard_only_checks_running ⟨cfgNoEndpoints, none, false⟩ rfl

/-- C9 counterexample: a `POST /run-test` with an empty body resets
`api_url` and `test_duration` to the hard-coded defaults instead of
retaining the previously stored values. -/
theorem run_test_resets_unsupplied_cex :
    (run_test_config_update cfgStored emptyBody).api_url ≠ cfgStored.api_url
    ∧ (run_test_config_update cfgStored emptyBody).test_duration
      ≠ cfgStored.test_duration := by
  constructor <;> decide

/-- C9 (amended): the `/run-test` handler sets each scalar field to the
supplied override or, when the key is absent, to its hard-coded default
(`http://target-api:5000`, 30 s, 50 workers, 5 s timeout, weights on) —
not to the previously stored value; only `endpoints` retains the stored
value when neither `endpoints` nor a truthy `reset_endpoints` is
supplied. -/
theorem run_test_merge_fields (cfg : Config) (d : RunTestBody)
    (he : d.endpoints = none)
    (hre : d.reset_endpoints.getD false = false) :
    (run_test_config_update cfg d).api_url = d.api_url.getD "http://target-api:5000"
    ∧ (run_test_config_update cfg d).test_duration = d.seconds.getD 30
    ∧ (run_test_config_update cfg d).concurrent_requests = d.requests.getD 50
    ∧ (run_test_config_update cfg d).request_timeout = d.timeout.getD 5
    ∧ (run_test_config_update cfg d).use_weights = d.use_weights.getD true
    ∧ (run_test_config_update cfg d).endpoints = cfg.endpoints := by
  simp [run_test_config_update, he, hre]

theorem run_test_merge_fields_witness :
    (run_test_config_update cfgStored emptyBody).api_url = "http://target-api:5000"
    ∧ (run_test_config_update cfgStored emptyBody).test_duration = 30
    ∧ (run_test_config_update cfgStored emptyBody).concurrent_requests = 50
    ∧ (run_test_config_update cfgStored emptyBody).request_timeout = 5
    ∧ (run_test_config_update cfgStored emptyBody).use_weights = true
    ∧ (run_test_config_update cfgStored emptyBody).endpoints = cfgStored.endpoints :=
  run_test_merge_fields cfgStored emptyBody rfl rfl

/-- C10: whatever the outcome of `run_load_test` — stored results or a
raised exception — the thread body's `finally` clause resets
`is_test_running` to false, so a subsequent start request is accepted
rather than rejected as "already running". -/
theorem thread_resets_running_flag (s : ControllerState) (outcome : Except String Results) :
    (runThread s outcome).is_test_running = false
    ∧ (startTest (runThread s outcome)).2 = StartResponse.started := by
  cases outcome <;> simp [runThread, startTest]

end StressTest
